import Mathlib

/-!
Verification of the Intent & Memory Pipeline of the AI-Assistant repository.

Text is modelled as `List Char` (Python `str`); Python floats are modelled as
exact rationals (`ℚ`); Python dicts that are built and read with string keys
are modelled as association lists in insertion order.  Each definition below
names the source function it embeds.
-/

/-- The character list of a string literal (Python text is modelled as `List Char`). -/
def chars (s : String) : List Char := s.data

/-- Models Python `str.lower()` (ASCII case folding; the CJK characters and
ASCII keywords compared in this code base are unaffected by wider Unicode
folding). -/
def pyLower (s : List Char) : List Char := s.map Char.toLower

/-- Models the Python substring test `needle in hay` on strings. -/
def isSubstr (needle : List Char) : List Char → Bool
  | [] => needle.isEmpty
  | c :: rest => needle.isPrefixOf (c :: rest) || isSubstr needle rest

/-- Models `any(keyword in text for keyword in keywords)`. -/
def hasAnyKeyword (keywords : List (List Char)) (text : List Char) : Bool :=
  keywords.any (fun k => isSubstr k text)

/- ### Stable insertion sort

Python's `list.sort(key=k, reverse=True)` is a stable descending sort.  A
stable insertion sort with the non-strict comparator `le a b = (key b ≤ key a)`
produces the same ordering. -/

/-- Insert `a` into `l` before the first element `b` with `le a b`. -/
def orderedInsert (le : α → α → Bool) (a : α) : List α → List α
  | [] => [a]
  | b :: l => if le a b then a :: b :: l else b :: orderedInsert le a l

/-- Stable insertion sort with a boolean comparator. -/
def insertionSort (le : α → α → Bool) : List α → List α
  | [] => []
  | a :: l => orderedInsert le a (insertionSort le l)

theorem orderedInsert_perm (le : α → α → Bool) (a : α) (l : List α) :
    (orderedInsert le a l).Perm (a :: l) := by
  induction l with
  | nil => simp [orderedInsert]
  | cons b t ih =>
    by_cases h : le a b = true
    · simp [orderedInsert, h]
    · simp only [orderedInsert, if_neg h]
      exact ((ih.cons b).trans (List.Perm.swap a b t))

theorem insertionSort_perm (le : α → α → Bool) (l : List α) :
    (insertionSort le l).Perm l := by
  induction l with
  | nil => simp [insertionSort]
  | cons a t ih =>
    exact (orderedInsert_perm le a (insertionSort le t)).trans (ih.cons a)

theorem mem_insertionSort (le : α → α → Bool) (l : List α) (x : α) :
    x ∈ insertionSort le l ↔ x ∈ l :=
  (insertionSort_perm le l).mem_iff

theorem length_insertionSort (le : α → α → Bool) (l : List α) :
    (insertionSort le l).length = l.length :=
  (insertionSort_perm le l).length_eq

theorem pairwise_orderedInsert (le : α → α → Bool)
    (total : ∀ a b, le a b || le b a) (trans : ∀ a b c, le a b → le b c → le a c)
    (a : α) (l : List α) (h : l.Pairwise (fun x y => le x y = true)) :
    (orderedInsert le a l).Pairwise (fun x y => le x y = true) := by
  induction l with
  | nil => simp [orderedInsert]
  | cons b t ih =>
    by_cases hab : le a b = true
    · simp only [orderedInsert, if_pos hab]
      refine List.Pairwise.cons ?_ h
      intro x hx
      rcases hx with _ | hx
      · exact hab
      · exact trans a b x hab (List.rel_of_pairwise_cons h (by assumption))
    · simp only [orderedInsert, if_neg hab]
      have hba : le b a = true := by
        rcases Bool.or_eq_true_iff.mp (total a b) with h1 | h1
        · exact absurd h1 hab
        · exact h1
      rcases List.pairwise_cons.mp h with ⟨hbt, ht⟩
      refine List.pairwise_cons.mpr ⟨?_, ih ht⟩
      intro x hx
      rcases List.mem_cons.mp ((orderedInsert_perm le a t).mem_iff.mp hx) with h1 | h1
      · subst h1; exact hba
      · exact hbt x h1

theorem pairwise_insertionSort (le : α → α → Bool)
    (total : ∀ a b, le a b || le b a) (trans : ∀ a b c, le a b → le b c → le a c)
    (l : List α) :
    (insertionSort le l).Pairwise (fun x y => le x y = true) := by
  induction l with
  | nil => simp [insertionSort]
  | cons a t ih => exact pairwise_orderedInsert le total trans a _ ih

/- ### Intent classifier (src/agent_core.py) -/

/-- The four coarse intent labels produced by `PersonalAssistant._detect_intent`. -/
inductive IntentType where
  | general
  | weather
  | calendar
  | email
deriving DecidableEq, Repr

/-- A value stored in the `entities` dict.  Python's `re.findall` returns plain
strings for single-group patterns and tuples for multi-group patterns, and
`_extract_time_info` stores `matches[0]` unchanged, so an entity value is
either a string or a pair of strings. -/
inductive EntityVal where
  | s (v : List Char)
  | pair (a b : List Char)
deriving DecidableEq, Repr

/-- The transient intent record built by `PersonalAssistant._detect_intent`. -/
structure Intent where
  type : IntentType
  confidence : ℚ
  entities : List (List Char × EntityVal)
deriving DecidableEq, Repr

/-- Weather keywords of `_detect_intent` (src/agent_core.py:73). -/
def weather_keywords : List (List Char) :=
  [chars "天氣", chars "氣溫", chars "下雨", chars "晴天", chars "陰天",
   chars "風速", chars "weather", chars "temperature"]

/-- Calendar keywords of `_detect_intent` (src/agent_core.py:75). -/
def calendar_keywords : List (List Char) :=
  [chars "會議", chars "安排", chars "日程", chars "約會", chars "提醒",
   chars "meeting", chars "schedule", chars "appointment"]

/-- Email keywords of `_detect_intent` (src/agent_core.py:77). -/
def email_keywords : List (List Char) :=
  [chars "郵件", chars "信件", chars "寄信", chars "回信",
   chars "email", chars "mail", chars "send"]

/-- The fixed city gazetteer of `PersonalAssistant._extract_cities`. -/
def city_list : List (List Char) :=
  [chars "台北", chars "台中", chars "台南", chars "高雄", chars "桃園",
   chars "新竹", chars "台東", chars "花蓮",
   chars "台灣", chars "香港", chars "澳門", chars "北京", chars "上海",
   chars "廣州", chars "深圳",
   chars "taipei", chars "taichung", chars "kaohsiung", chars "hong kong",
   chars "macau",
   chars "beijing", chars "shanghai", chars "guangzhou", chars "shenzhen",
   chars "tokyo", chars "osaka", chars "seoul", chars "singapore",
   chars "bangkok",
   chars "new york", chars "london", chars "paris", chars "sydney",
   chars "melbourne"]

/-- Models `PersonalAssistant._extract_cities`: every gazetteer city whose
lowercase form occurs in the lowercase input, in gazetteer order. -/
def extract_cities (text : List Char) : List (List Char) :=
  city_list.filter (fun city => isSubstr (pyLower city) (pyLower text))

/-- Is this character one of the clock-unit markers `點`/`時` of the pattern
`(\d{1,2})[點時]`? -/
def isClockUnit (c : Char) : Bool := c = '點' || c = '時'

/-- First match of the Python pattern `(\d{1,2})[點時]`, returning the digit
group: a leftmost match of one or two digits (greedy) followed by `點` or `時`. -/
def findTimeHour : List Char → Option (List Char)
  | [] => none
  | [_] => none
  | [a, b] => if a.isDigit && isClockUnit b then some [a] else none
  | a :: b :: c :: rest =>
    if a.isDigit && b.isDigit && isClockUnit c then some [a, b]
    else if a.isDigit && isClockUnit b then some [a]
    else findTimeHour (b :: c :: rest)

/-- First match of the Python pattern `(\d{1,2}):(\d{2})`, returning the two
digit groups: leftmost match of one or two digits (greedy), a colon, and
exactly two digits. -/
def findTimeColon : List Char → Option (List Char × List Char)
  | a :: b :: c :: d :: e :: rest =>
    if a.isDigit && b.isDigit && c = ':' && d.isDigit && e.isDigit then
      some ([a, b], [d, e])
    else if a.isDigit && b = ':' && c.isDigit && d.isDigit then
      some ([a], [c, d])
    else findTimeColon (b :: c :: d :: e :: rest)
  | [a, b, c, d] =>
    if a.isDigit && b = ':' && c.isDigit && d.isDigit then some ([a], [c, d])
    else none
  | _ => none

/-- The alternatives of the Python pattern `(上午|下午|早上|晚上|中午)`. -/
def dayPeriodWords : List (List Char) :=
  [chars "上午", chars "下午", chars "早上", chars "晚上", chars "中午"]

/-- First match of `(上午|下午|早上|晚上|中午)`: the leftmost occurrence of one
of the five period-of-day words. -/
def findTimePeriod : List Char → Option (List Char)
  | [] => none
  | c :: rest =>
    match dayPeriodWords.find? (fun w => w.isPrefixOf (c :: rest)) with
    | some w => some w
    | none => findTimePeriod rest

/-- Models `PersonalAssistant._extract_time_info` (src/agent_core.py:133-158):
a date entry from the literal tokens 今天/今日, 明天/明日, 後天 in that
priority order, then a time entry from the first of the three time patterns
with a non-empty match list; the `HH:MM` pattern has two capture groups, so
its `matches[0]` is a pair. -/
def extract_time_info (text : List Char) : List (List Char × EntityVal) :=
  let dateEntries : List (List Char × EntityVal) :=
    if isSubstr (chars "今天") text || isSubstr (chars "今日") text then
      [(chars "date", .s (chars "today"))]
    else if isSubstr (chars "明天") text || isSubstr (chars "明日") text then
      [(chars "date", .s (chars "tomorrow"))]
    else if isSubstr (chars "後天") text then
      [(chars "date", .s (chars "day_after_tomorrow"))]
    else []
  let timeEntries : List (List Char × EntityVal) :=
    match findTimeHour text with
    | some d => [(chars "time", .s d)]
    | none =>
      match findTimeColon text with
      | some (h, m) => [(chars "time", .pair h m)]
      | none =>
        match findTimePeriod text with
        | some w => [(chars "time", .s w)]
        | none => []
  dateEntries ++ timeEntries

/-- Models `PersonalAssistant._detect_intent` (src/agent_core.py:60-110):
weather keywords are checked first, then calendar, then email; the first set
with a substring hit fixes the type and constant confidence; otherwise the
intent stays `general` with confidence 0.0. -/
def detect_intent (user_input : List Char) : Intent :=
  let lower := pyLower user_input
  if hasAnyKeyword weather_keywords lower then
    { type := .weather, confidence := 4/5,
      entities :=
        match extract_cities user_input with
        | [] => []
        | c :: _ => [(chars "city", .s c)] }
  else if hasAnyKeyword calendar_keywords lower then
    { type := .calendar, confidence := 7/10,
      entities := extract_time_info user_input }
  else if hasAnyKeyword email_keywords lower then
    { type := .email, confidence := 7/10, entities := [] }
  else
    { type := .general, confidence := 0, entities := [] }

example : (detect_intent (chars "明天的會議時天氣如何")).type = .weather := by decide
example : (detect_intent (chars "hello")).type = .general := by decide
example : (detect_intent (chars "安排會議3:30")).entities =
    [(chars "time", .pair (chars "3") (chars "30"))] := by decide
example : (detect_intent (chars "明天2點開會議")).entities =
    [(chars "date", .s (chars "tomorrow")), (chars "time", .s (chars "2"))] := by decide

/- ### Dispatch guard and context assembly of `process_request` -/

/-- Models the tool-dispatch guard of `PersonalAssistant.process_request`
(src/agent_core.py:275): `intent['type'] != 'general' and
intent['confidence'] > 0.5`. -/
def usesTool (intent : Intent) : Bool :=
  decide (intent.type ≠ .general) && decide ((1/2 : ℚ) < intent.confidence)

/-- Models the context assembly of `PersonalAssistant.process_request` up to
the chat-history section (src/agent_core.py:272-277): the current-time line,
plus a tool-result section exactly when the dispatch guard holds. -/
def process_request_context (now : List Char) (intent : Intent)
    (tool_result : List Char) : List Char :=
  let context := chars "當前時間：" ++ now ++ chars "\n"
  if usesTool intent then
    context ++ chars "\n工具執行結果：\n" ++ tool_result ++ chars "\n"
  else context

/-- C1: any input containing a weather keyword (case-insensitive substring)
classifies as `weather` with confidence 0.8 regardless of calendar or email
keywords, and an input containing no keyword from any of the three sets
classifies as `general` with confidence 0.0. -/
theorem c1_weather_priority (input : List Char) :
    (hasAnyKeyword weather_keywords (pyLower input) = true →
      (detect_intent input).type = .weather ∧
      (detect_intent input).confidence = 4/5) ∧
    (hasAnyKeyword weather_keywords (pyLower input) = false →
      hasAnyKeyword calendar_keywords (pyLower input) = false →
      hasAnyKeyword email_keywords (pyLower input) = false →
      (detect_intent input).type = .general ∧
      (detect_intent input).confidence = 0) := by
  constructor
  · intro hw
    unfold detect_intent
    simp only [hw, if_pos]
    cases extract_cities input <;> simp
  · intro hw hc he
    unfold detect_intent
    simp [hw, hc, he]

/-- Witness for C1: `開會議前想知道天氣` contains both a calendar keyword
(`會議`) and a weather keyword (`天氣`) and classifies as weather with
confidence 0.8, while `hello there` contains no keyword and classifies as
general with confidence 0.0. -/
theorem c1_weather_priority_witness :
    ((detect_intent (chars "開會議前想知道天氣")).type = .weather ∧
     (detect_intent (chars "開會議前想知道天氣")).confidence = 4/5) ∧
    ((detect_intent (chars "hello there")).type = .general ∧
     (detect_intent (chars "hello there")).confidence = 0) :=
  ⟨(c1_weather_priority (chars "開會議前想知道天氣")).1 (by decide),
   (c1_weather_priority (chars "hello there")).2 (by decide) (by decide) (by decide)⟩

/-- C9 (code bug): on the calendar input `安排會議3:30` the classifier stores
the `time` entity as the pair `('3', '30')` — Python's `re.findall` on the
two-group pattern `(\d{1,2}):(\d{2})` returns tuples — contradicting the
declared `Dict[str, str]` return type of `_extract_time_info`, under which
every entity value is a single string. -/
theorem c9_time_entity_tuple :
    (detect_intent (chars "安排會議3:30")).type = .calendar ∧
    (detect_intent (chars "安排會議3:30")).entities =
      [(chars "time", .pair (chars "3") (chars "30"))] ∧
    ∀ v : List Char, EntityVal.pair (chars "3") (chars "30") ≠ .s v := by
  refine ⟨by decide, by decide, ?_⟩
  intro v h
  cases h

/-- C4: the dispatch guard of `process_request` holds exactly when the intent
type is not `general` and the confidence is strictly greater than 0.5; at
confidence exactly 0.5 no tool is dispatched and the assembled context carries
no tool-result section. -/
theorem c4_dispatch_boundary (intent : Intent) (now tool_result : List Char) :
    (usesTool intent = true ↔
      (intent.type ≠ .general ∧ (1/2 : ℚ) < intent.confidence)) ∧
    (intent.confidence = 1/2 →
      usesTool intent = false ∧
      process_request_context now intent tool_result =
        chars "當前時間：" ++ now ++ chars "\n") := by
  constructor
  · simp [usesTool]
  · intro hc
    have hu : usesTool intent = false := by
      simp [usesTool, hc]
    exact ⟨hu, by simp [process_request_context, hu]⟩

/-- Witness for C4: a calendar intent with confidence exactly 0.5 does not
dispatch and its assembled context is just the current-time line. -/
theorem c4_dispatch_boundary_witness :
    usesTool ⟨.calendar, 1/2, []⟩ = false ∧
    process_request_context (chars "2024-06-11 10:00:00")
        ⟨.calendar, 1/2, []⟩ (chars "tool output") =
      chars "當前時間：" ++ chars "2024-06-11 10:00:00" ++ chars "\n" :=
  (c4_dispatch_boundary ⟨.calendar, 1/2, []⟩ (chars "2024-06-11 10:00:00")
    (chars "tool output")).2 rfl

/- ### Memory store (src/memory.py) -/

/-- A stored exchange, as built by `ConversationMemory.add_memory`. -/
structure Memory where
  timestamp : List Char
  user_input : List Char
  assistant_response : List Char
  importance : ℚ
  keywords : List (List Char)
  category : List Char
deriving DecidableEq, Repr

/-- A user-preference value: `re.findall` yields strings for the one-group
patterns and pairs for the two-group pattern `我的(.+)是(.+)`. -/
inductive PrefVal where
  | s (v : List Char)
  | pair (a b : List Char)
deriving DecidableEq, Repr

/-- An important-fact record of `_extract_important_facts`. -/
structure ImportantFact where
  content : List Char
  timestamp : List Char
  context : List Char
deriving DecidableEq, Repr

/-- Models Python's `\w` (word character) for the texts this code handles:
ASCII alphanumerics, underscore, and non-ASCII (CJK) characters. -/
def isWordChar (c : Char) : Bool := c.isAlphanum || c = '_' || 128 ≤ c.toNat

/-- Accumulator pass of Python's no-argument `str.split()`: split on
whitespace runs, dropping empty pieces. -/
def pySplitAux : List Char → List Char → List (List Char)
  | [], acc => if acc.isEmpty then [] else [acc.reverse]
  | c :: rest, acc =>
    if c.isWhitespace then
      if acc.isEmpty then pySplitAux rest [] else acc.reverse :: pySplitAux rest []
    else pySplitAux rest (c :: acc)

/-- Models Python's no-argument `str.split()`. -/
def pySplit (s : List Char) : List (List Char) := pySplitAux s []

/-- The stop-word set of `ConversationMemory._extract_keywords`. -/
def stop_words : List (List Char) :=
  [chars "的", chars "是", chars "在", chars "了", chars "有", chars "和",
   chars "就", chars "都", chars "而", chars "及", chars "與", chars "或",
   chars "但", chars "不", chars "沒", chars "很", chars "還", chars "也",
   chars "只", chars "再", chars "更", chars "最", chars "非常",
   chars "the", chars "is", chars "at", chars "which", chars "on",
   chars "and", chars "a", chars "to", chars "as", chars "are",
   chars "was", chars "will", chars "be", chars "have", chars "has",
   chars "had", chars "do", chars "does", chars "did"]

/-- Models `ConversationMemory._extract_keywords` (src/memory.py:51-69):
lower-case, replace non-word non-space characters by spaces, split on
whitespace, keep words of length > 1 that are not stop words, first 10. -/
def extract_keywords (text : List Char) : List (List Char) :=
  let cleaned := (pyLower text).map
    (fun c => if isWordChar c || c.isWhitespace then c else ' ')
  let words := pySplit cleaned
  (words.filter (fun w => 1 < w.length && !(stop_words.contains w))).take 10

/-- The category keyword table of `ConversationMemory._categorize_memory`,
in the source's insertion (priority) order. -/
def memory_categories : List (List Char × List (List Char)) :=
  [(chars "weather",
    [chars "天氣", chars "氣溫", chars "下雨", chars "晴天", chars "weather"]),
   (chars "schedule",
    [chars "會議", chars "安排", chars "日程", chars "約會",
     chars "meeting", chars "schedule"]),
   (chars "email",
    [chars "郵件", chars "信件", chars "寄信", chars "email", chars "mail"]),
   (chars "personal",
    [chars "我", chars "我的", chars "個人", chars "喜歡", chars "偏好",
     chars "my", chars "personal"]),
   (chars "work",
    [chars "工作", chars "公司", chars "同事", chars "專案",
     chars "work", chars "project", chars "company"]),
   (chars "general", [])]

/-- Models `ConversationMemory._categorize_memory` (src/memory.py:71-88):
first category whose keyword set hits the lowercase input, else `general`. -/
def categorize_memory (user_input : List Char) : List Char :=
  match memory_categories.find? (fun ck => hasAnyKeyword ck.2 (pyLower user_input)) with
  | some ck => ck.1
  | none => chars "general"

/-- Python string `<=` (lexicographic by code point). -/
def strLe : List Char → List Char → Bool
  | [], _ => true
  | _ :: _, [] => false
  | x :: xs, y :: ys => if x < y then true else if y < x then false else strLe xs ys

/-- Comparator realizing `sort(key=lambda x: (x['importance'], x['timestamp']),
reverse=True)`: `cleanupLe a b` iff the sort key of `b` is ≤ the sort key of
`a` (tuples compared lexicographically). -/
def cleanupLe (a b : Memory) : Bool :=
  if b.importance < a.importance then true
  else if a.importance < b.importance then false
  else strLe b.timestamp a.timestamp

/-- Models `ConversationMemory._cleanup_memories` (src/memory.py:134-139):
if the entry count exceeds the maximum, sort by `(importance, timestamp)`
descending (stable) and truncate to the maximum. -/
def cleanup_memories (max_memories : Nat) (memories : List Memory) : List Memory :=
  if max_memories < memories.length then
    (insertionSort cleanupLe memories).take max_memories
  else memories

/-- Models the `memories`-field effect of `ConversationMemory.add_memory`
(src/memory.py:22-49): build the entry from the inputs, append it, then
enforce capacity.  (Preference and fact extraction write only to the other
two structures.)  `ts` stands for `datetime.now().isoformat()`.
`new_memory` is the entry dict built at src/memory.py:31-38. -/
def new_memory (ts user_input assistant_response : List Char)
    (importance : ℚ) : Memory :=
  { timestamp := ts, user_input := user_input,
    assistant_response := assistant_response, importance := importance,
    keywords := extract_keywords (user_input ++ chars " " ++ assistant_response),
    category := categorize_memory user_input }

/-- Append the new entry and enforce capacity (second half of `add_memory`). -/
def add_memory (max_memories : Nat) (memories : List Memory)
    (ts user_input assistant_response : List Char) (importance : ℚ) : List Memory :=
  cleanup_memories max_memories
    (memories ++ [new_memory ts user_input assistant_response importance])

/-- The relevance filter-and-score pass of
`ConversationMemory.get_relevant_memories` (src/memory.py:155-175): keep the
entries with nonzero keyword overlap, paired with
`overlap / |union| * 0.7 + importance * 0.3`, sorted by score descending
(stable). -/
def scored_memories (memories : List Memory) (query : List Char) :
    List (Memory × ℚ) :=
  let query_keywords := (extract_keywords query).toFinset
  let relevant := memories.filterMap (fun m =>
    let memory_keywords := m.keywords.toFinset
    let overlap := (query_keywords ∩ memory_keywords).card
    if 0 < overlap then
      some (m, (overlap : ℚ) / ((query_keywords ∪ memory_keywords).card : ℚ)
                 * (7/10)
               + m.importance * (3/10))
    else none)
  insertionSort (fun a b => decide (b.2 ≤ a.2)) relevant

/-- `datetime.fromisoformat(ts).strftime('%m-%d %H:%M')` on an ISO timestamp
`YYYY-MM-DDTHH:MM:SS`: the `MM-DD` and `HH:MM` slices. -/
def formatTimestamp (ts : List Char) : List Char :=
  (ts.drop 5).take 5 ++ chars " " ++ (ts.drop 11).take 5

/-- The output line `"[MM-DD HH:MM] 用戶: <first 50 chars>..."` of
`get_relevant_memories`. -/
def format_memory_line (m : Memory) : List Char :=
  chars "[" ++ formatTimestamp m.timestamp ++ chars "] 用戶: "
    ++ m.user_input.take 50 ++ chars "..."

/-- Models `ConversationMemory.get_relevant_memories` (src/memory.py:141-184). -/
def get_relevant_memories (memories : List Memory) (query : List Char)
    (limit : Nat) : List (List Char) :=
  if memories.isEmpty then []
  else ((scored_memories memories query).take limit).map (fun p => format_memory_line p.1)

/-- The per-value kinds in the dict returned by `get_memory_statistics`
(Python ints, floats, and the category-count dict). -/
inductive StatVal where
  | nat (n : Nat)
  | rat (q : ℚ)
  | table (kvs : List (List Char × Nat))
deriving DecidableEq, Repr

/-- `defaultdict(int)` increment: bump the count of `k`, first occurrence
appended at the end (Python dict insertion order). -/
def bumpCount : List (List Char × Nat) → List Char → List (List Char × Nat)
  | [], k => [(k, 1)]
  | (k', n) :: rest, k =>
    if k' = k then (k', n + 1) :: rest else (k', n) :: bumpCount rest k

/-- The category counting loop of `get_memory_statistics`. -/
def category_counts (memories : List Memory) : List (List Char × Nat) :=
  memories.foldl (fun acc m => bumpCount acc m.category) []

/-- Models `ConversationMemory.get_memory_statistics` (src/memory.py:235-257):
an early return with three zero entries when the store is empty, else the
five-entry dict with the mean importance. -/
def get_memory_statistics (memories : List Memory)
    (user_preferences : List (List Char × List PrefVal))
    (important_facts : List (List Char × ImportantFact)) :
    List (List Char × StatVal) :=
  if memories.isEmpty then
    [(chars "total_memories", .nat 0),
     (chars "categories", .table []),
     (chars "average_importance", .rat 0)]
  else
    [(chars "total_memories", .nat memories.length),
     (chars "categories", .table (category_counts memories)),
     (chars "average_importance",
       .rat ((memories.map Memory.importance).sum / (memories.length : ℚ))),
     (chars "user_preferences_count", .nat user_preferences.length),
     (chars "important_facts_count", .nat important_facts.length)]

theorem strLe_total : ∀ s t : List Char, strLe s t || strLe t s := by
  intro s
  induction s with
  | nil => intro t; simp [strLe]
  | cons x xs ih =>
    intro t
    cases t with
    | nil => simp [strLe]
    | cons y ys =>
      simp only [strLe]
      rcases lt_trichotomy x y with h | h | h
      · simp [h]
      · subst h
        simpa [lt_irrefl] using ih ys
      · simp [h, lt_asymm h]

theorem strLe_trans :
    ∀ s t u : List Char, strLe s t = true → strLe t u = true → strLe s u = true := by
  intro s
  induction s with
  | nil => intro t u _ _; rfl
  | cons x xs ih =>
    intro t u h1 h2
    cases t with
    | nil => simp [strLe] at h1
    | cons y ys =>
      cases u with
      | nil => simp [strLe] at h2
      | cons z zs =>
        simp only [strLe] at h1 h2 ⊢
        rcases lt_trichotomy x y with hxy | hxy | hxy
        · rcases lt_trichotomy y z with hyz | hyz | hyz
          · simp [lt_trans hxy hyz]
          · subst hyz; simp [hxy]
          · rw [if_neg (lt_asymm hyz), if_pos hyz] at h2; cases h2
        · subst hxy
          rcases lt_trichotomy x z with hxz | hxz | hxz
          · simp [hxz]
          · subst hxz
            simp only [lt_irrefl, if_neg, if_false] at h1 h2 ⊢
            exact ih _ _ h1 h2
          · rw [if_neg (lt_asymm hxz), if_pos hxz] at h2; cases h2
        · rw [if_neg (lt_asymm hxy), if_pos hxy] at h1; cases h1

theorem cleanupLe_total : ∀ a b : Memory, cleanupLe a b || cleanupLe b a := by
  intro a b
  simp only [cleanupLe]
  rcases lt_trichotomy a.importance b.importance with h | h | h
  · simp [h, lt_asymm h]
  · simp only [h, lt_irrefl, if_false]
    exact strLe_total b.timestamp a.timestamp
  · simp [h, lt_asymm h]

theorem cleanupLe_trans :
    ∀ a b c : Memory, cleanupLe a b → cleanupLe b c → cleanupLe a c := by
  intro a b c h1 h2
  simp only [cleanupLe] at h1 h2 ⊢
  rcases lt_trichotomy b.importance a.importance with hba | hba | hba
  · rcases lt_trichotomy c.importance b.importance with hcb | hcb | hcb
    · simp [lt_trans hcb hba]
    · simp [hcb ▸ hba]
    · rw [if_neg (lt_asymm hcb), if_pos hcb] at h2; cases h2
  · rcases lt_trichotomy c.importance b.importance with hcb | hcb | hcb
    · simp [hba ▸ hcb]
    · have hca : c.importance = a.importance := hcb.trans hba
      rw [if_neg (hba ▸ lt_irrefl a.importance), if_neg (hba ▸ lt_irrefl a.importance)] at h1
      rw [if_neg (hcb ▸ lt_irrefl b.importance), if_neg (hcb ▸ lt_irrefl b.importance)] at h2
      rw [if_neg (hca ▸ lt_irrefl a.importance), if_neg (hca ▸ lt_irrefl a.importance)]
      exact strLe_trans _ _ _ h2 h1
    · rw [if_neg (lt_asymm hcb), if_pos hcb] at h2; cases h2
  · rw [if_neg (lt_asymm hba), if_pos hba] at h1; cases h1

/-- C2: `get_relevant_memories` returns at most `limit` lines; every selected
scored entry has nonzero keyword overlap with the query (regardless of its
importance) and carries score `|∩| / |∪| * 0.7 + importance * 0.3` over the
query's and the entry's keyword sets; and the selected entries are ordered by
descending score. -/
theorem c2_get_relevant_bounded_and_scored (memories : List Memory)
    (query : List Char) (limit : Nat) :
    (get_relevant_memories memories query limit).length ≤ limit ∧
    (∀ p ∈ (scored_memories memories query).take limit,
      ((extract_keywords query).toFinset ∩ p.1.keywords.toFinset).card ≠ 0 ∧
      p.2 = (((extract_keywords query).toFinset ∩ p.1.keywords.toFinset).card : ℚ) /
              (((extract_keywords query).toFinset ∪ p.1.keywords.toFinset).card : ℚ)
              * (7/10)
            + p.1.importance * (3/10)) ∧
    ((scored_memories memories query).take limit).Pairwise
      (fun a b => b.2 ≤ a.2) := by
  refine ⟨?_, ?_, ?_⟩
  · unfold get_relevant_memories
    split
    · simp
    · rw [List.length_map]
      exact List.length_take_le limit _
  · intro p hp
    have hp' : p ∈ scored_memories memories query := List.mem_of_mem_take hp
    unfold scored_memories at hp'
    rw [mem_insertionSort] at hp'
    rcases List.mem_filterMap.mp hp' with ⟨m, _, hm⟩
    by_cases hov :
        0 < ((extract_keywords query).toFinset ∩ m.keywords.toFinset).card
    · rw [if_pos hov] at hm
      have h' := Option.some.inj hm
      subst h'
      exact ⟨Nat.pos_iff_ne_zero.mp hov, rfl⟩
    · rw [if_neg hov] at hm
      cases hm
  · have hs := pairwise_insertionSort (fun a b : Memory × ℚ => decide (b.2 ≤ a.2))
      (by intro a b; rcases le_total b.2 a.2 with h | h <;> simp [h])
      (by intro a b c h1 h2
          simp only [decide_eq_true_eq] at h1 h2 ⊢
          exact le_trans h2 h1)
    have := (hs (memories.filterMap (fun m =>
      let memory_keywords := m.keywords.toFinset
      let overlap := ((extract_keywords query).toFinset ∩ memory_keywords).card
      if 0 < overlap then
        some (m, (overlap : ℚ) /
                  (((extract_keywords query).toFinset ∪ memory_keywords).card : ℚ)
                 * (7/10)
               + m.importance * (3/10))
      else none)))
    have hps : (scored_memories memories query).Pairwise
        (fun a b => (decide (b.2 ≤ a.2)) = true) := this
    have := hps.sublist (List.take_sublist limit _)
    exact this.imp (fun h => of_decide_eq_true h)

/-- Concrete store entry for the C2 witness: its keywords are exactly the
query's keywords and its importance is 1, so its score is
`2/2 * 0.7 + 1 * 0.3 = 1`. -/
def c2mem : Memory :=
  { timestamp := chars "2024-06-11T09:00:00",
    user_input := chars "meeting tomorrow ok",
    assistant_response := chars "ok",
    importance := 1,
    keywords := [chars "meeting", chars "tomorrow"],
    category := chars "schedule" }

set_option maxRecDepth 10000 in
/-- Witness for C2 at a concrete one-entry store and the query
`meeting tomorrow`. -/
theorem c2_get_relevant_bounded_and_scored_witness :
    (get_relevant_memories [c2mem] (chars "meeting tomorrow") 5).length ≤ 5 ∧
    ((extract_keywords (chars "meeting tomorrow")).toFinset ∩
      c2mem.keywords.toFinset).card ≠ 0 ∧
    (1 : ℚ) = (((extract_keywords (chars "meeting tomorrow")).toFinset ∩
                  c2mem.keywords.toFinset).card : ℚ) /
                (((extract_keywords (chars "meeting tomorrow")).toFinset ∪
                  c2mem.keywords.toFinset).card : ℚ) * (7/10)
              + c2mem.importance * (3/10) :=
  ⟨(c2_get_relevant_bounded_and_scored [c2mem] (chars "meeting tomorrow") 5).1,
   (c2_get_relevant_bounded_and_scored [c2mem] (chars "meeting tomorrow") 5).2.1
     (c2mem, 1) (by with_unfolding_all decide)⟩

/-- C3: after every add the stored count equals `min (old count + 1) max`, so
it never exceeds `max` and stays exactly `max` once that size is reached; and
whenever the append exceeds capacity, the retained list is the `max`-prefix of
the stable `(importance, timestamp)`-descending sort of all entries: it is
itself ordered descending under that key, every retained entry dominates every
discarded entry under that key, and retained plus discarded is a permutation
of the old entries plus the new one. -/
theorem c3_capacity_and_eviction (max_memories : Nat) (memories : List Memory)
    (ts user_input assistant_response : List Char) (importance : ℚ) :
    (add_memory max_memories memories ts user_input assistant_response importance).length
        = min (memories.length + 1) max_memories ∧
    (max_memories ≤ memories.length →
      (add_memory max_memories memories ts user_input assistant_response importance).length
        = max_memories) ∧
    (max_memories < memories.length + 1 →
      add_memory max_memories memories ts user_input assistant_response importance
          = (insertionSort cleanupLe
              (memories ++ [new_memory ts user_input assistant_response importance])).take
              max_memories ∧
      (add_memory max_memories memories ts user_input assistant_response importance).Pairwise
          (fun a b => cleanupLe a b = true) ∧
      (∀ x ∈ add_memory max_memories memories ts user_input assistant_response importance,
       ∀ y ∈ (insertionSort cleanupLe
              (memories ++ [new_memory ts user_input assistant_response importance])).drop
              max_memories,
        cleanupLe x y = true) ∧
      (add_memory max_memories memories ts user_input assistant_response importance ++
        (insertionSort cleanupLe
          (memories ++ [new_memory ts user_input assistant_response importance])).drop
          max_memories).Perm
        (memories ++ [new_memory ts user_input assistant_response importance])) := by
  have hlen_all :
      (memories ++ [new_memory ts user_input assistant_response importance]).length
        = memories.length + 1 := by simp
  by_cases h : max_memories < memories.length + 1
  · have hcond : max_memories <
        (memories ++ [new_memory ts user_input assistant_response importance]).length := by
      rw [hlen_all]; exact h
    have heq : add_memory max_memories memories ts user_input assistant_response importance
        = (insertionSort cleanupLe
            (memories ++ [new_memory ts user_input assistant_response importance])).take
            max_memories := by
      unfold add_memory cleanup_memories
      rw [if_pos hcond]
    have hsorted := pairwise_insertionSort cleanupLe cleanupLe_total cleanupLe_trans
      (memories ++ [new_memory ts user_input assistant_response importance])
    refine ⟨?_, ?_, fun _ => ⟨heq, ?_, ?_, ?_⟩⟩
    · rw [heq, List.length_take, length_insertionSort, hlen_all, Nat.min_comm]
    · intro _
      rw [heq, List.length_take, length_insertionSort, hlen_all]
      omega
    · rw [heq]
      exact hsorted.sublist (List.take_sublist _ _)
    · intro x hx y hy
      rw [heq] at hx
      rw [← List.take_append_drop max_memories (insertionSort cleanupLe
        (memories ++ [new_memory ts user_input assistant_response importance]))] at hsorted
      rcases List.pairwise_append.mp hsorted with ⟨_, _, hcross⟩
      exact hcross x hx y hy
    · rw [heq, List.take_append_drop]
      exact insertionSort_perm _ _
  · have hcond : ¬ max_memories <
        (memories ++ [new_memory ts user_input assistant_response importance]).length := by
      rw [hlen_all]; exact h
    have heq : add_memory max_memories memories ts user_input assistant_response importance
        = memories ++ [new_memory ts user_input assistant_response importance] := by
      unfold add_memory cleanup_memories
      rw [if_neg hcond]
    refine ⟨?_, ?_, fun hc => absurd hc h⟩
    · rw [heq, hlen_all]
      omega
    · intro hle
      exact absurd hle (by omega)

/-- Concrete old high-importance entry for the C3 witness. -/
def c3old : Memory :=
  { timestamp := chars "2024-06-10T09:00:00",
    user_input := chars "old important note",
    assistant_response := chars "ok",
    importance := 1,
    keywords := [chars "old", chars "important", chars "note"],
    category := chars "general" }

/-- Witness for C3 at capacity 1: adding a recent entry of importance 0 keeps
the count at 1 and evicts the newcomer, retaining the older importance-1
entry — a low-importance recent entry is dropped before a high-importance old
one. -/
theorem c3_capacity_and_eviction_witness :
    (add_memory 1 [c3old] (chars "2024-06-11T09:00:00") (chars "hello")
        (chars "ok") 0).length = 1 ∧
    add_memory 1 [c3old] (chars "2024-06-11T09:00:00") (chars "hello")
        (chars "ok") 0 = [c3old] :=
  ⟨(c3_capacity_and_eviction 1 [c3old] (chars "2024-06-11T09:00:00") (chars "hello")
      (chars "ok") 0).2.1 (by decide),
   by decide⟩

/-- C8 counterexample: on a store with no memories but one recorded user
preference, the statistics dict is the three-entry early return and contains
no `user_preferences_count` (or `important_facts_count`) entry at all, so the
preference count (here 1) is not returned. -/
theorem c8_stats_counterexample :
    get_memory_statistics [] [(chars "likes", [PrefVal.s (chars "咖啡")])] [] =
      [(chars "total_memories", .nat 0),
       (chars "categories", .table []),
       (chars "average_importance", .rat 0)] ∧
    List.lookup (chars "user_preferences_count")
      (get_memory_statistics [] [(chars "likes", [PrefVal.s (chars "咖啡")])] [])
      = none ∧
    List.lookup (chars "important_facts_count")
      (get_memory_statistics [] [(chars "likes", [PrefVal.s (chars "咖啡")])] [])
      = none := by
  refine ⟨rfl, rfl, rfl⟩

/-- C8 (amended): on a nonempty store `get_memory_statistics` returns the
total count, the per-category counts, the mean importance
(sum of importances over the count, whose divisor is nonzero), the preference
count and the fact count; on an empty store it returns zero totals, an empty
category table and mean 0.0 without dividing, but omits the preference-count
and fact-count entries. -/
theorem c8_stats_fields (memories : List Memory)
    (user_preferences : List (List Char × List PrefVal))
    (important_facts : List (List Char × ImportantFact)) :
    (memories = [] →
      get_memory_statistics memories user_preferences important_facts =
        [(chars "total_memories", .nat 0),
         (chars "categories", .table []),
         (chars "average_importance", .rat 0)]) ∧
    (memories ≠ [] →
      memories.length ≠ 0 ∧
      List.lookup (chars "total_memories")
          (get_memory_statistics memories user_preferences important_facts)
        = some (.nat memories.length) ∧
      List.lookup (chars "categories")
          (get_memory_statistics memories user_preferences important_facts)
        = some (.table (category_counts memories)) ∧
      List.lookup (chars "average_importance")
          (get_memory_statistics memories user_preferences important_facts)
        = some (.rat ((memories.map Memory.importance).sum / (memories.length : ℚ))) ∧
      List.lookup (chars "user_preferences_count")
          (get_memory_statistics memories user_preferences important_facts)
        = some (.nat user_preferences.length) ∧
      List.lookup (chars "important_facts_count")
          (get_memory_statistics memories user_preferences important_facts)
        = some (.nat important_facts.length)) := by
  constructor
  · intro h
    subst h
    rfl
  · intro h
    have hne : memories.isEmpty = false := by
      simpa [List.isEmpty_iff] using h
    have hlen : memories.length ≠ 0 := by
      simpa [List.length_eq_zero] using h
    unfold get_memory_statistics
    rw [hne]
    refine ⟨hlen, ?_, ?_, ?_, ?_, ?_⟩ <;>
      simp [List.lookup, chars]

/-- Concrete entry for the C8 witness. -/
def c8mem : Memory :=
  { timestamp := chars "2024-06-11T10:00:00",
    user_input := chars "hello",
    assistant_response := chars "hi",
    importance := 1,
    keywords := [chars "hello"],
    category := chars "general" }

/-- Witness for C8 at the empty store and at a one-entry store. -/
theorem c8_stats_fields_witness :
    get_memory_statistics [] [] [] =
      [(chars "total_memories", StatVal.nat 0),
       (chars "categories", StatVal.table []),
       (chars "average_importance", StatVal.rat 0)] ∧
    List.lookup (chars "total_memories") (get_memory_statistics [c8mem] [] [])
      = some (StatVal.nat 1) ∧
    List.lookup (chars "user_preferences_count") (get_memory_statistics [c8mem] [] [])
      = some (StatVal.nat 0) :=
  ⟨(c8_stats_fields [] [] []).1 rfl,
   ((c8_stats_fields [c8mem] [] []).2 (by decide)).2.1,
   ((c8_stats_fields [c8mem] [] []).2 (by decide)).2.2.2.2.1⟩

/- ### Export / import serialization (src/memory.py:265-285)

`export_memories` builds a dict of the three structures plus a timestamp and
serializes it with `json.dumps`; `import_memories` parses with `json.loads`
and replaces the three structures, returning False (state untouched) when the
payload is not a JSON object.  The Python values involved are dynamic
(strings, numbers, lists, tuples from `re.findall`, dicts), modelled by the
mutually inductive `PyObj`. -/

mutual
inductive PyObj where
  | str : List Char → PyObj
  | num : ℚ → PyObj
  | list : PyList → PyObj
  | tup : PyList → PyObj
  | dict : PyDict → PyObj

inductive PyList where
  | nil : PyList
  | cons : PyObj → PyList → PyList

inductive PyDict where
  | nil : PyDict
  | cons : List Char → PyObj → PyDict → PyDict
end

/-- Build a `PyList` from a Lean list. -/
def PyList.ofList : List PyObj → PyList
  | [] => .nil
  | x :: xs => .cons x (PyList.ofList xs)

/-- Build a `PyDict` from a Lean association list. -/
def PyDict.ofList : List (List Char × PyObj) → PyDict
  | [] => .nil
  | (k, v) :: rest => .cons k v (PyDict.ofList rest)

mutual
/-- The value-level effect of `json.loads(json.dumps(x))` for the Python json
library: tuples are written as JSON arrays and read back as lists; strings,
exact numbers, list order and dict insertion order round-trip unchanged. -/
def normObj : PyObj → PyObj
  | .str s => .str s
  | .num q => .num q
  | .list xs => .list (normList xs)
  | .tup xs => .list (normList xs)
  | .dict kvs => .dict (normDict kvs)

def normList : PyList → PyList
  | .nil => .nil
  | .cons x xs => .cons (normObj x) (normList xs)

def normDict : PyDict → PyDict
  | .nil => .nil
  | .cons k v kvs => .cons k (normObj v) (normDict kvs)
end

mutual
/-- No tuple occurs anywhere inside the value. -/
def tupFree : PyObj → Bool
  | .str _ => true
  | .num _ => true
  | .list xs => tupFreeList xs
  | .tup _ => false
  | .dict kvs => tupFreeDict kvs

def tupFreeList : PyList → Bool
  | .nil => true
  | .cons x xs => tupFree x && tupFreeList xs

def tupFreeDict : PyDict → Bool
  | .nil => true
  | .cons _ v rest => tupFree v && tupFreeDict rest
end

mutual
theorem normObj_eq_self : ∀ x : PyObj, tupFree x = true → normObj x = x
  | .str _, _ => rfl
  | .num _, _ => rfl
  | .list xs, h => by
    rw [normObj, normList_eq_self xs (by simpa [tupFree] using h)]
  | .tup _, h => by simp [tupFree] at h
  | .dict kvs, h => by
    rw [normObj, normDict_eq_self kvs (by simpa [tupFree] using h)]

theorem normList_eq_self : ∀ xs : PyList, tupFreeList xs = true → normList xs = xs
  | .nil, _ => rfl
  | .cons x xs, h => by
    rw [normList, normObj_eq_self x (by simp [tupFreeList] at h; exact h.1),
      normList_eq_self xs (by simp [tupFreeList] at h; exact h.2)]

theorem normDict_eq_self : ∀ kvs : PyDict, tupFreeDict kvs = true → normDict kvs = kvs
  | .nil, _ => rfl
  | .cons k v rest, h => by
    rw [normDict, normObj_eq_self v (by simp [tupFreeDict] at h; exact h.1),
      normDict_eq_self rest (by simp [tupFreeDict] at h; exact h.2)]
end

/-- `dict.get(key, default)` on the modelled dict. -/
def pyDictGet : PyDict → List Char → PyObj → PyObj
  | .nil, _, default => default
  | .cons k v rest, key, default =>
    if k = key then v else pyDictGet rest key default

/-- The three mutable structures of `ConversationMemory` as dynamic values. -/
structure MemorySnapshot where
  memories : PyObj
  user_preferences : PyObj
  important_facts : PyObj

/-- Models `ConversationMemory.export_memories` (src/memory.py:265-273): the
export dict (serialized by `json.dumps`; the serialization boundary is kept at
the value level, see `normObj`). -/
def export_memories (st : MemorySnapshot) (export_ts : List Char) : PyObj :=
  .dict (PyDict.ofList
    [(chars "memories", st.memories),
     (chars "user_preferences", st.user_preferences),
     (chars "important_facts", st.important_facts),
     (chars "export_timestamp", .str export_ts)])

/-- Models `ConversationMemory.import_memories` (src/memory.py:275-285).
`parsed` is the result of `json.loads` on the given string: `none` when
parsing raised.  On a parsed object the three structures are replaced via
`data.get` with its defaults; on a parsed non-object the first `.get` raises
`AttributeError` before any assignment, so the handler returns False with the
state untouched. -/
def import_memories (st : MemorySnapshot) (parsed : Option PyObj) :
    Bool × MemorySnapshot :=
  match parsed with
  | some (.dict kvs) =>
    (true,
     { memories := pyDictGet kvs (chars "memories") (.list .nil),
       user_preferences := pyDictGet kvs (chars "user_preferences") (.dict .nil),
       important_facts := pyDictGet kvs (chars "important_facts") (.dict .nil) })
  | some _ => (false, st)
  | none => (false, st)

/-- A reachable store state holding one tuple-valued `attributes` preference:
`re.findall` on the two-group pattern `我的(.+)是(.+)` (e.g. for the input
`我的車是紅色`) appends the tuple `('車', '紅色')` to
`user_preferences['attributes']`. -/
def tupPrefState : MemorySnapshot :=
  { memories := .list .nil,
    user_preferences := .dict (PyDict.ofList
      [(chars "attributes",
        .list (PyList.ofList [.tup (PyList.ofList
          [.str (chars "車"), .str (chars "紅色")])]))]),
    important_facts := .dict .nil }

/-- C5 counterexample: on a state holding a tuple-valued preference, export
followed by import returns True but the reimported `attributes` entry is a
two-element list, not the original tuple — the collections are not reproduced
exactly as they were. -/
theorem c5_export_import_counterexample :
    (import_memories tupPrefState
        (some (normObj (export_memories tupPrefState
          (chars "2024-06-11T12:00:00"))))).1 = true ∧
    (import_memories tupPrefState
        (some (normObj (export_memories tupPrefState
          (chars "2024-06-11T12:00:00"))))).2.user_preferences
      = .dict (PyDict.ofList
          [(chars "attributes",
            .list (PyList.ofList [.list (PyList.ofList
              [.str (chars "車"), .str (chars "紅色")])]))]) ∧
    (import_memories tupPrefState
        (some (normObj (export_memories tupPrefState
          (chars "2024-06-11T12:00:00"))))).2.user_preferences
      ≠ tupPrefState.user_preferences := by
  refine ⟨rfl, rfl, ?_⟩
  intro h
  have h' : PyObj.dict (PyDict.ofList
      [(chars "attributes",
        .list (PyList.ofList [.list (PyList.ofList
          [.str (chars "車"), .str (chars "紅色")])]))])
      = tupPrefState.user_preferences := by
    rw [← h]
    rfl
  simp [tupPrefState, PyDict.ofList, PyList.ofList] at h'

/-- C5 (amended): export followed by import returns True and reproduces the
memories, user-preferences and important-facts collections exactly, provided
the collections contain no tuple values (tuples come back as lists); in
particular the round-trip on the empty store yields the empty store. -/
theorem c5_export_import_roundtrip (m p f : PyObj) (export_ts : List Char)
    (hm : tupFree m = true) (hp : tupFree p = true) (hf : tupFree f = true) :
    import_memories ⟨m, p, f⟩
        (some (normObj (export_memories ⟨m, p, f⟩ export_ts)))
      = (true, ⟨m, p, f⟩) := by
  have h : import_memories ⟨m, p, f⟩
      (some (normObj (export_memories ⟨m, p, f⟩ export_ts)))
      = (true, ⟨normObj m, normObj p, normObj f⟩) := rfl
  rw [h, normObj_eq_self m hm, normObj_eq_self p hp, normObj_eq_self f hf]

/-- The empty store as a snapshot. -/
def emptySnapshot : MemorySnapshot :=
  { memories := .list .nil,
    user_preferences := .dict .nil,
    important_facts := .dict .nil }

/-- Witness for C5: the round-trip on the empty store yields the empty store
and reports success. -/
theorem c5_export_import_roundtrip_witness :
    import_memories emptySnapshot
        (some (normObj (export_memories emptySnapshot
          (chars "2024-06-11T12:00:00"))))
      = (true, emptySnapshot) :=
  c5_export_import_roundtrip (.list .nil) (.dict .nil) (.dict .nil)
    (chars "2024-06-11T12:00:00") rfl rfl rfl

/-- C10: whenever `import_memories` fails — exactly when the payload is not a
parseable JSON object — it returns False and leaves all three structures
unchanged (no partial replacement is observable). -/
theorem c10_import_failure_atomic (st : MemorySnapshot) (parsed : Option PyObj) :
    ((import_memories st parsed).1 = false →
      import_memories st parsed = (false, st)) ∧
    ((import_memories st parsed).1 = false ↔
      ∀ kvs, parsed ≠ some (.dict kvs)) := by
  constructor
  · intro h
    match parsed with
    | none => rfl
    | some (.str _) => rfl
    | some (.num _) => rfl
    | some (.list _) => rfl
    | some (.tup _) => rfl
    | some (.dict kvs) => exact absurd h (by simp [import_memories])
  · constructor
    · intro h kvs hk
      rw [hk] at h
      simp [import_memories] at h
    · intro h
      match parsed with
      | none => rfl
      | some (.str _) => rfl
      | some (.num _) => rfl
      | some (.list _) => rfl
      | some (.tup _) => rfl
      | some (.dict kvs) => exact absurd rfl (h kvs)

/-- A populated store for the C10 witness. -/
def c10state : MemorySnapshot :=
  { memories := .list (PyList.ofList [.str (chars "m1")]),
    user_preferences := .dict (PyDict.ofList
      [(chars "likes", .list (PyList.ofList [.str (chars "tea")]))]),
    important_facts := .dict .nil }

/-- Witness for C10: an unparseable payload and a parseable non-object
payload (`42`) both fail and leave the populated store untouched. -/
theorem c10_import_failure_atomic_witness :
    import_memories c10state none = (false, c10state) ∧
    import_memories c10state (some (.num 42)) = (false, c10state) :=
  ⟨(c10_import_failure_atomic c10state none).1 rfl,
   (c10_import_failure_atomic c10state (some (.num 42))).1 rfl⟩

/- ### Calendar tool (src/tools/calendar.py) -/

/-- A scheduled event as built by `CalendarTool._add_event`. -/
structure Event where
  id : Nat
  title : List Char
  date : List Char
  time : List Char
  duration : List Char
  location : List Char
  description : List Char
  created_at : List Char
  priority : List Char
deriving DecidableEq, Repr

/-- The first match of `re.findall(r'\d+', text)`: the leftmost maximal digit
run (ASCII digits; the inputs this tool parses contain no other Unicode
digits). -/
def firstDigitRun : List Char → Option (List Char)
  | [] => none
  | c :: rest =>
    if c.isDigit then some (c :: rest.takeWhile Char.isDigit)
    else firstDigitRun rest

/-- Python `int()` on a digit string. -/
def digitsToNat (ds : List Char) : Nat :=
  ds.foldl (fun n c => 10 * n + (c.toNat - '0'.toNat)) 0

/-- Models `CalendarTool._extract_event_id` (src/tools/calendar.py:287-293)
and the identical `EmailTool._extract_email_id`: `int(numbers[0])` of the
first digit run, `None` when the text has no digit. -/
def extract_event_id (text : List Char) : Option Nat :=
  (firstDigitRun text).map digitsToNat

/-- Decimal rendering of a number interpolated into an f-string. -/
def natChars (n : Nat) : List Char := (toString n).data

/-- The no-id-given reply of `_delete_event`. -/
def delete_no_id_message : List Char :=
  chars "❌ 請指定要刪除的事件ID，例如：「刪除事件1」或先查看事件列表獲取ID"

/-- The id-not-found reply of `_delete_event`. -/
def delete_not_found_message (event_id : Nat) : List Char :=
  chars "❌ 找不到ID為 " ++ natChars event_id ++ chars " 的事件"

/-- The success reply of `_delete_event`. -/
def delete_success_message (title : List Char) : List Char :=
  chars "✅ 已成功刪除事件「" ++ title ++ chars "」"

/-- The deletion loop of `_delete_event`: pop the first event with the given
id and report success, else report id-not-found. -/
def removeEventById (event_id : Nat) : List Event → List Char × List Event
  | [] => (delete_not_found_message event_id, [])
  | e :: rest =>
    if e.id = event_id then (delete_success_message e.title, rest)
    else
      let r := removeEventById event_id rest
      (r.1, e :: r.2)

/-- Models `CalendarTool._delete_event` (src/tools/calendar.py:270-285).
Python's truthiness test `if event_id:` treats both `None` (no digit found)
and the extracted id `0` as no-id-given. -/
def delete_event (events : List Event) (user_input : List Char) :
    List Char × List Event :=
  match extract_event_id user_input with
  | some event_id =>
    if event_id = 0 then (delete_no_id_message, events)
    else removeEventById event_id events
  | none => (delete_no_id_message, events)

theorem removeEventById_not_found (event_id : Nat) (events : List Event)
    (h : ∀ e ∈ events, e.id ≠ event_id) :
    removeEventById event_id events = (delete_not_found_message event_id, events) := by
  induction events with
  | nil => rfl
  | cons e rest ih =>
    rw [removeEventById, if_neg (h e (List.mem_cons_self e rest)),
      ih (fun x hx => h x (List.mem_cons_of_mem e hx))]

theorem no_id_message_ne_not_found (event_id : Nat) :
    delete_no_id_message ≠ delete_not_found_message event_id := by
  intro h
  have hl : delete_no_id_message[2]? = some '請' := by decide
  have hr : (delete_not_found_message event_id)[2]? = some '找' := by
    rw [delete_not_found_message, List.append_assoc,
      List.getElem?_append_left (by decide : 2 < (chars "❌ 找不到ID為 ").length)]
    decide
  rw [h, hr] at hl
  cases hl

/-- C6 counterexample: on the delete input `刪除0` the first extracted integer
is 0, which matches no stored event id, yet the tool answers with the
no-id-given message, not the not-found message (Python's `if event_id:` is
false at 0); the collection is unchanged. -/
theorem c6_delete_counterexample :
    extract_event_id (chars "刪除0") = some 0 ∧
    (∀ e ∈ [({ id := 1, title := chars "會議", date := chars "2024-06-12",
               time := chars "14:00", duration := chars "1小時", location := [],
               description := [], created_at := chars "2024-06-11T09:00:00",
               priority := chars "normal" } : Event)], e.id ≠ 0) ∧
    delete_event
        [{ id := 1, title := chars "會議", date := chars "2024-06-12",
           time := chars "14:00", duration := chars "1小時", location := [],
           description := [], created_at := chars "2024-06-11T09:00:00",
           priority := chars "normal" }] (chars "刪除0")
      = (delete_no_id_message,
         [{ id := 1, title := chars "會議", date := chars "2024-06-12",
            time := chars "14:00", duration := chars "1小時", location := [],
            description := [], created_at := chars "2024-06-11T09:00:00",
            priority := chars "normal" }]) ∧
    delete_no_id_message ≠ delete_not_found_message 0 := by
  refine ⟨by decide, by decide, by decide, by decide⟩

/-- C6 (amended): a delete whose first extracted integer is nonzero and
matches no stored id returns the not-found message and leaves the events
unchanged; a delete input with no integer at all — or whose first integer is
0, folded into the same case by Python truthiness — returns the distinct
no-id-given message, also leaving the events unchanged. -/
theorem c6_delete_failures (events : List Event) (user_input : List Char) :
    (extract_event_id user_input = none →
      delete_event events user_input = (delete_no_id_message, events)) ∧
    (extract_event_id user_input = some 0 →
      delete_event events user_input = (delete_no_id_message, events)) ∧
    (∀ event_id, extract_event_id user_input = some event_id → event_id ≠ 0 →
      (∀ e ∈ events, e.id ≠ event_id) →
      delete_event events user_input =
        (delete_not_found_message event_id, events)) ∧
    (∀ event_id, delete_no_id_message ≠ delete_not_found_message event_id) := by
  refine ⟨?_, ?_, ?_, no_id_message_ne_not_found⟩
  · intro h
    rw [delete_event, h]
  · intro h
    rw [delete_event, h]
    rfl
  · intro event_id h hnz hmem
    simp only [delete_event, h]
    rw [if_neg hnz]
    exact removeEventById_not_found event_id events hmem

/-- Witness for C6: deleting id 7 from a one-event store (id 1) reports
not-found and keeps the store; the input `刪除行程` has no integer and gets
the no-id reply on the same store. -/
theorem c6_delete_failures_witness :
    delete_event
        [{ id := 1, title := chars "開會", date := chars "2024-06-12",
           time := chars "14:00", duration := chars "1小時", location := [],
           description := [], created_at := chars "2024-06-11T09:00:00",
           priority := chars "normal" }] (chars "刪除事件7")
      = (delete_not_found_message 7,
         [{ id := 1, title := chars "開會", date := chars "2024-06-12",
            time := chars "14:00", duration := chars "1小時", location := [],
            description := [], created_at := chars "2024-06-11T09:00:00",
            priority := chars "normal" }]) ∧
    delete_event
        [{ id := 1, title := chars "開會", date := chars "2024-06-12",
           time := chars "14:00", duration := chars "1小時", location := [],
           description := [], created_at := chars "2024-06-11T09:00:00",
           priority := chars "normal" }] (chars "刪除行程")
      = (delete_no_id_message,
         [{ id := 1, title := chars "開會", date := chars "2024-06-12",
            time := chars "14:00", duration := chars "1小時", location := [],
            description := [], created_at := chars "2024-06-11T09:00:00",
            priority := chars "normal" }]) :=
  ⟨(c6_delete_failures _ (chars "刪除事件7")).2.2.1 7 (by decide) (by decide)
     (by decide),
   (c6_delete_failures _ (chars "刪除行程")).1 (by decide)⟩

/- ### Email tool (src/tools/email.py) -/

/-- A mock mailbox entry.  The Python dict keys `from` and `to` are Lean
keywords, so those fields are named `sender` and `recipient`. -/
structure Email where
  id : Nat
  sender : List Char
  recipient : List Char
  subject : List Char
  body : List Char
  date : List Char
  read : Bool
  priority : List Char
deriving DecidableEq, Repr

/-- The first seeded mailbox entry of `EmailTool.__init__`. -/
def mockEmail1 : Email :=
  { id := 1, sender := chars "john.doe@company.com", recipient := chars "user@email.com",
    subject := chars "週會議程確認",
    body := chars "請確認明天的週會議程，會議時間是上午10點。",
    date := chars "2024-06-11", read := false, priority := chars "normal" }

/-- The second seeded mailbox entry of `EmailTool.__init__`. -/
def mockEmail2 : Email :=
  { id := 2, sender := chars "hr@company.com", recipient := chars "user@email.com",
    subject := chars "年假申請審核",
    body := chars "您的年假申請已通過審核，請查看附件。",
    date := chars "2024-06-10", read := true, priority := chars "high" }

/-- The third seeded mailbox entry of `EmailTool.__init__`. -/
def mockEmail3 : Email :=
  { id := 3, sender := chars "client@external.com", recipient := chars "user@email.com",
    subject := chars "專案進度詢問",
    body := chars "想了解一下目前專案的進度如何？預計什麼時候可以完成？",
    date := chars "2024-06-09", read := false, priority := chars "urgent" }

/-- The seeded mailbox of `EmailTool.__init__`. -/
def mock_emails : List Email := [mockEmail1, mockEmail2, mockEmail3]

/-- Models `EmailTool._find_email_by_id`: first entry with the id. -/
def find_email_by_id : List Email → Nat → Option Email
  | [], _ => none
  | e :: rest, email_id =>
    if e.id = email_id then some e else find_email_by_id rest email_id

/-- The in-place `email['read'] = True` of `_read_emails`: the fetched dict is
aliased by the mailbox list, so the first entry with the id gets its `read`
flag set. -/
def markEmailRead : List Email → Nat → List Email
  | [], _ => []
  | e :: rest, email_id =>
    if e.id = email_id then { e with read := true } :: rest
    else e :: markEmailRead rest email_id

/-- The priority line of `_format_single_email`
(`{...}.get(email['priority'], '🟢 一般')`). -/
def priority_icon_full (p : List Char) : List Char :=
  if p = chars "urgent" then chars "🔴 緊急"
  else if p = chars "high" then chars "🟡 重要"
  else if p = chars "normal" then chars "🟢 一般"
  else chars "🟢 一般"

/-- Models `EmailTool._format_single_email` (src/tools/email.py:222-244). -/
def format_single_email (e : Email) : List Char :=
  chars "📧 **郵件詳情**\n\n📋 **主旨**: " ++ e.subject
    ++ chars "\n📤 **寄件者**: " ++ e.sender
    ++ chars "\n📥 **收件者**: " ++ e.recipient
    ++ chars "\n📅 **日期**: " ++ e.date
    ++ chars "\n⚡ **優先級**: " ++ priority_icon_full e.priority
    ++ chars "\n\n📝 **內容**:\n" ++ e.body
    ++ chars "\n\n---\n💡 **操作建議**: \n• 回覆此郵件：「回覆郵件" ++ natChars e.id
    ++ chars "」\n• 標記為重要：「標記郵件" ++ natChars e.id ++ chars "為重要」"

/-- The list-item icon of `_format_email_list`
(`{...}.get(email['priority'], '🟢')`). -/
def priority_icon_short (p : List Char) : List Char :=
  if p = chars "urgent" then chars "🔴"
  else if p = chars "high" then chars "🟡"
  else if p = chars "normal" then chars "🟢"
  else chars "🟢"

/-- The read-state icon of `_format_email_list`. -/
def read_status_icon (r : Bool) : List Char :=
  if r then chars "✅" else chars "🆕"

/-- The `enumerate(emails, 1)` loop body of `_format_email_list`. -/
def format_email_list_rows : Nat → List Email → List Char
  | _, [] => []
  | i, e :: rest =>
    chars "**" ++ natChars i ++ chars ". " ++ e.subject ++ chars "** "
      ++ priority_icon_short e.priority ++ chars " " ++ read_status_icon e.read
      ++ chars "\n   📤 寄件者: " ++ e.sender
      ++ chars "\n   📅 日期: " ++ e.date
      ++ chars "\n   📝 預覽: " ++ e.body.take 50
      ++ chars "...\n   🔢 ID: " ++ natChars e.id ++ chars "\n\n"
      ++ format_email_list_rows (i + 1) rest

/-- Models `EmailTool._format_email_list` (src/tools/email.py:196-220). -/
def format_email_list (emails : List Email) (title : List Char) : List Char :=
  title ++ chars "\n\n" ++ format_email_list_rows 1 emails
    ++ chars "📊 **統計**: 共 " ++ natChars emails.length
    ++ chars " 封郵件\n💡 使用「查看郵件{ID}」來讀取完整內容"

/-- The no-id filter path of `_read_emails` (src/tools/email.py:181-194):
unread filter, then priority filter, then the last five entries; the mailbox
itself is never changed on this path. -/
def read_emails_filtered (mock : List Email) (user_input : List Char) :
    List Char × List Email :=
  let pair :=
    if isSubstr (chars "未讀") user_input
        || isSubstr (chars "unread") (pyLower user_input) then
      (mock.filter (fun e => !e.read), chars "📧 **未讀郵件**")
    else if isSubstr (chars "重要") user_input
        || isSubstr (chars "important") (pyLower user_input) then
      (mock.filter (fun e => e.priority = chars "high"
                 || e.priority = chars "urgent"),
       chars "⚡ **重要郵件**")
    else
      (mock.drop (mock.length - 5), chars "📧 **最新郵件**")
  if pair.1.isEmpty then (chars "📪 沒有找到符合條件的郵件。", mock)
  else (format_email_list pair.1 pair.2, mock)

/-- Models `EmailTool._read_emails` (src/tools/email.py:166-194), returning
the reply together with the mailbox after the call.  Python's truthiness test
`if email_id:` sends both `None` and `0` to the filter path. -/
def read_emails (mock : List Email) (user_input : List Char) :
    List Char × List Email :=
  match extract_event_id user_input with
  | some email_id =>
    if email_id = 0 then read_emails_filtered mock user_input
    else
      match find_email_by_id mock email_id with
      | some e =>
        (format_single_email { e with read := true }, markEmailRead mock email_id)
      | none =>
        (chars "❌ 找不到ID為 " ++ natChars email_id ++ chars " 的郵件", mock)
  | none => read_emails_filtered mock user_input

theorem find_email_first (email_id : Nat) (pre post : List Email) (e : Email)
    (hpre : ∀ x ∈ pre, x.id ≠ email_id) (he : e.id = email_id) :
    find_email_by_id (pre ++ e :: post) email_id = some e := by
  induction pre with
  | nil => simp [find_email_by_id, he]
  | cons x rest ih =>
    rw [List.cons_append]
    simp only [find_email_by_id]
    rw [if_neg (hpre x (List.mem_cons_self x rest))]
    exact ih (fun y hy => hpre y (List.mem_cons_of_mem x hy))

theorem markEmailRead_first (email_id : Nat) (pre post : List Email) (e : Email)
    (hpre : ∀ x ∈ pre, x.id ≠ email_id) (he : e.id = email_id) :
    markEmailRead (pre ++ e :: post) email_id
      = pre ++ { e with read := true } :: post := by
  induction pre with
  | nil => simp [markEmailRead, he]
  | cons x rest ih =>
    rw [List.cons_append]
    simp only [markEmailRead]
    rw [if_neg (hpre x (List.mem_cons_self x rest))]
    rw [ih (fun y hy => hpre y (List.mem_cons_of_mem x hy)), List.cons_append]

/-- C7: a read-by-id naming an existing mailbox entry returns the full
formatted record of that entry and sets exactly that entry's `read` field to
true; every other field of the entry and every other mailbox entry is
unchanged, and a second read of the same id returns the same record on the
already-read mailbox, which it leaves fixed. -/
theorem c7_read_by_id (user_input : List Char) (email_id : Nat)
    (pre post : List Email) (e : Email)
    (hid : extract_event_id user_input = some email_id) (hnz : email_id ≠ 0)
    (hpre : ∀ x ∈ pre, x.id ≠ email_id) (he : e.id = email_id) :
    read_emails (pre ++ e :: post) user_input
      = (format_single_email { e with read := true },
         pre ++ { e with read := true } :: post) ∧
    read_emails (pre ++ { e with read := true } :: post) user_input
      = (format_single_email { e with read := true },
         pre ++ { e with read := true } :: post) := by
  have he' : ({ e with read := true } : Email).id = email_id := he
  constructor
  · simp only [read_emails, hid, if_neg hnz,
      find_email_first email_id pre post e hpre he,
      markEmailRead_first email_id pre post e hpre he]
  · simp only [read_emails, hid, if_neg hnz,
      find_email_first email_id pre post { e with read := true } hpre he',
      markEmailRead_first email_id pre post { e with read := true } hpre he']

/-- Witness for C7: reading mailbox entry 2 of the seeded mailbox returns its
formatted record, flips only its `read` flag, and a second read of id 2 sees
the already-read mailbox unchanged. -/
theorem c7_read_by_id_witness :
    read_emails mock_emails (chars "查看郵件2")
      = (format_single_email { mockEmail2 with read := true },
         [mockEmail1, { mockEmail2 with read := true }, mockEmail3]) ∧
    read_emails [mockEmail1, { mockEmail2 with read := true }, mockEmail3]
        (chars "查看郵件2")
      = (format_single_email { mockEmail2 with read := true },
         [mockEmail1, { mockEmail2 with read := true }, mockEmail3]) :=
  c7_read_by_id (chars "查看郵件2") 2 [mockEmail1] [mockEmail3] mockEmail2
    (by decide) (by decide) (by decide) (by decide)
